import Mathlib

/-
Verification development for the OpenDocvivid backend core: the credit
ledger, the subscription state machine, and the credit-settlement tail of
the video generation pipeline.  The Python sources under
src/backend/src/ are shallowly embedded below: SQLAlchemy rows become
structures, the database becomes an explicit state record, `async`
operations become pure functions `St → Except AppError (St × _)` where a
returned error models a raised exception after rollback (the caller keeps
the pre-call state), and external collaborators (Gemini, storage,
tokenizers) become oracle parameters.
-/

/-- A UTC timestamp (`datetime.now(timezone.utc).replace(tzinfo=None)`),
abstracted to exactly the fields the embedded code inspects: the calendar
`year` and `month` (used by the monthly-grant idempotence check) and a
total order key `ord` (minutes since an epoch, used by every date
comparison).  `addDays` advances the order key; the calendar fields of a
shifted date are never inspected by any embedded operation. -/
structure DateTime where
  year : Nat
  month : Nat
  ord : Nat
deriving DecidableEq, Repr

/-- `timedelta(days=n)` addition on a timestamp. -/
def DateTime.addDays (d : DateTime) (n : Nat) : DateTime :=
  { d with ord := d.ord + n * 1440 }

/-- `TransactionType` from src/backend/src/models/subscription_models.py. -/
inductive TransactionType
  | monthly_grant
  | monthly_reclaim
  | task_consume
  | refund
  | admin_adjust
  | purchase
  | redeem_code
deriving DecidableEq, Repr

/-- `SubscriptionStatus` from subscription_models.py. -/
inductive SubscriptionStatus
  | active
  | cancelled
  | expired
  | pending
  | deleted
deriving DecidableEq, Repr

/-- `SubscriptionType` from subscription_models.py. -/
inductive SubscriptionType
  | basic
  | pro
deriving DecidableEq, Repr

/-- `SubscriptionPeriod` from subscription_models.py. -/
inductive SubscriptionPeriod
  | monthly
  | yearly
deriving DecidableEq, Repr

/-- `TaskStatus` from src/backend/src/models/task_modes.py. -/
inductive TaskStatus
  | pending
  | processing
  | completed
  | failed
  | cancelled
deriving DecidableEq, Repr

/-- The typed exceptions of src/backend/src/utils/exceptions.py that the
embedded operations can raise. -/
inductive AppError
  | badRequest
  | unauthorized
  | forbidden
  | notFound
  | conflict
  | internalServer
  | urlAccess
  | fileProcessing
  | storage
  | tokenLimitExceeded
  | insufficientCredit
deriving DecidableEq, Repr

instance {e a : Type} [DecidableEq e] [DecidableEq a] : DecidableEq (Except e a) :=
  fun x y =>
    match x, y with
    | .ok v, .ok w =>
      if h : v = w then isTrue (by rw [h]) else isFalse (by simp [h])
    | .error v, .error w =>
      if h : v = w then isTrue (by rw [h]) else isFalse (by simp [h])
    | .ok _, .error _ => isFalse (by simp)
    | .error _, .ok _ => isFalse (by simp)

/-- `monthly_credits` of the `SUBSCRIPTION_PLANS` catalog in
subscription_models.py (1000 for basic, 2200 for pro; the credit amount
does not depend on the billing period). -/
def plan_monthly_credits : SubscriptionType → Int
  | .basic => 1000
  | .pro => 2200

/-- `calculate_segment_credit` from subscription_models.py: credits
charged for one segment from its duration in seconds. -/
def calculate_segment_credit (duration_seconds : Int) : Int :=
  if duration_seconds > 60 then 45
  else if duration_seconds ≥ 45 then 40
  else if duration_seconds ≥ 30 then 35
  else 30

/-- `calculate_task_credit` from subscription_models.py: total credits of
a task, summed over its segment durations. -/
def calculate_task_credit (segments_duration : List Int) : Int :=
  (segments_duration.map calculate_segment_credit).sum

/-- A `credit_transactions` row (class `CreditTransaction` in
subscription_models.py).  Ids are modelled as naturals; the free-text
`description` and `extra_metadata` columns are omitted (no embedded
operation reads them back).  `created_at` ordering is the position in the
ledger log list. -/
structure CreditTransaction where
  user_id : Nat
  task_id : Option Nat := none
  subscription_id : Option Nat := none
  transaction_type : TransactionType
  amount : Int
  balance_after : Int
deriving DecidableEq, Repr

/-- A `redeem_codes` row (class `RedeemCode` in subscription_models.py);
`used_at` is omitted (never read back). -/
structure RedeemCode where
  code : String
  credit_amount : Int
  is_used : Bool
  used_by : Option Nat := none
deriving DecidableEq, Repr

/-- A `subscriptions` row (class `Subscription` in
subscription_models.py).  The price/billing/payment columns are omitted:
no embedded operation reads them. -/
structure Subscription where
  id : Nat
  user_id : Nat
  subscription_type : SubscriptionType
  subscription_period : SubscriptionPeriod
  status : SubscriptionStatus
  monthly_credits : Int
  start_date : Option DateTime := none
  end_date : Option DateTime := none
  next_billing_date : Option DateTime := none
  last_credit_grant_date : Option DateTime := none
  cancelled_at : Option DateTime := none
deriving DecidableEq, Repr

/-- A `video_generate_tasks` row (class `VideoGenerateTask` in
src/backend/src/models/task_modes.py) restricted to the columns the
embedded orchestration code touches. -/
structure VideoGenerateTask where
  id : Nat
  task_id : Nat
  user_id : Nat
  status : TaskStatus
  progress : Nat
  input_type : Option String := none
  original_text : String := ""
  source_url : Option String := none
  input_file_url : Option String := none
  target_language : String := "english"
  voice_type : String := "mike"
  output_video_url : Option String := none
  video_duration : Option Int := none
  credit_cost : Option Int := none
  error_message : Option String := none
deriving DecidableEq, Repr

/-- The database state the embedded services act on: each user's
`credit_balance` (the `users.credit_balance` column, keyed by user id),
the append-only credit transaction log in creation order, and the redeem
code, subscription and task tables. -/
structure St where
  balances : List (Nat × Int)
  log : List CreditTransaction
  codes : List RedeemCode := []
  subs : List Subscription := []
  tasks : List VideoGenerateTask := []
deriving DecidableEq, Repr

/-- `select(User).where(User.id == user_id)` followed by reading
`credit_balance`; `none` models `scalar_one_or_none()` finding no row. -/
def getBalance (s : St) (u : Nat) : Option Int :=
  (s.balances.find? (fun p => p.1 == u)).map Prod.snd

/-- Writing `user.credit_balance = v` back to the user row. -/
def setBalance (l : List (Nat × Int)) (u : Nat) (v : Int) : List (Nat × Int) :=
  l.map (fun p => if p.1 == u then (u, v) else p)

/-- The sub-log of one user's transactions, in creation order. -/
def userLog (u : Nat) (l : List CreditTransaction) : List CreditTransaction :=
  l.filter (fun t => t.user_id == u)

/-- Sum of the signed `amount` fields of a transaction list. -/
def amountSum : List CreditTransaction → Int
  | [] => 0
  | t :: r => t.amount + amountSum r

/-- Replay check: starting from running balance `b`, each transaction's
stored `balance_after` equals the running sum of the signed amounts. -/
def replayFrom (b : Int) : List CreditTransaction → Bool
  | [] => true
  | t :: r => (b + t.amount == t.balance_after) && replayFrom (b + t.amount) r

/-- The ledger invariant of spec section 3: for every user row, replaying
that user's transactions in creation order from an initial balance of 0
reproduces every `balance_after` snapshot, and the running total equals
the stored `credit_balance`. -/
def ledgerInv (s : St) : Prop :=
  ∀ p ∈ s.balances,
    replayFrom 0 (userLog p.1 s.log) = true ∧ amountSum (userLog p.1 s.log) = p.2

instance (s : St) : Decidable (ledgerInv s) :=
  inferInstanceAs (Decidable (∀ p ∈ s.balances,
    replayFrom 0 (userLog p.1 s.log) = true ∧ amountSum (userLog p.1 s.log) = p.2))

/-- `CreditService.MIN_CREDIT_FOR_TASK` in
src/backend/src/services/credit_service.py. -/
def MIN_CREDIT_FOR_TASK : Int := 30

/-- `CreditService.check_credit_sufficient`: reads the user row and
compares `credit_balance` to the requirement.  The body runs inside
`try/except Exception`, so the `NotFoundException` for a missing user is
re-raised as `InternalServerException`. -/
def check_credit_sufficient (s : St) (user_id : Nat) (required_credit : Int) :
    Except AppError Bool :=
  match getBalance s user_id with
  | none => .error .internalServer
  | some bal => .ok (bal ≥ required_credit)

/-- The `try` body of `CreditService.consume_credit`: look the user up,
raise `InsufficientCreditException` if `credit_balance < amount`,
otherwise debit the balance and append a `task_consume` transaction with
`amount = -amount` and `balance_after` the post-debit balance. -/
def consume_credit_body (s : St) (user_id : Nat) (amount : Int)
    (task_id : Option Nat) : Except AppError (St × CreditTransaction) :=
  match getBalance s user_id with
  | none => .error .notFound
  | some bal =>
    if bal < amount then .error .insufficientCredit
    else
      let t : CreditTransaction :=
        { user_id := user_id, task_id := task_id,
          transaction_type := .task_consume, amount := -amount,
          balance_after := bal - amount }
      .ok ({ s with
              balances := setBalance s.balances user_id (bal - amount),
              log := s.log ++ [t] }, t)

/-- `CreditService.consume_credit`: the `try` body wrapped by the blanket
`except Exception` handler, which rolls the session back (the caller
keeps the pre-call state) and raises `InternalServerException` for every
exception — including the `InsufficientCreditException` raised inside. -/
def consume_credit (s : St) (user_id : Nat) (amount : Int)
    (task_id : Option Nat) : Except AppError (St × CreditTransaction) :=
  match consume_credit_body s user_id amount task_id with
  | .ok r => .ok r
  | .error _ => .error .internalServer

/-- The `try` body of `CreditService.grant_credit`: credit the balance
and append a transaction of the given type with `amount = +amount`. -/
def grant_credit_body (s : St) (user_id : Nat) (amount : Int)
    (transaction_type : TransactionType) (subscription_id : Option Nat) :
    Except AppError (St × CreditTransaction) :=
  match getBalance s user_id with
  | none => .error .notFound
  | some bal =>
    let t : CreditTransaction :=
      { user_id := user_id, subscription_id := subscription_id,
        transaction_type := transaction_type, amount := amount,
        balance_after := bal + amount }
    .ok ({ s with
            balances := setBalance s.balances user_id (bal + amount),
            log := s.log ++ [t] }, t)

/-- `CreditService.grant_credit`, with its blanket `except Exception`
handler (rollback, then `InternalServerException`). -/
def grant_credit (s : St) (user_id : Nat) (amount : Int)
    (transaction_type : TransactionType) (subscription_id : Option Nat) :
    Except AppError (St × CreditTransaction) :=
  match grant_credit_body s user_id amount transaction_type subscription_id with
  | .ok r => .ok r
  | .error _ => .error .internalServer

/-- `CreditService.refund_credit`: a wrapper over `grant_credit` with
type `refund` (no task or subscription id is forwarded). -/
def refund_credit (s : St) (user_id : Nat) (amount : Int) :
    Except AppError (St × CreditTransaction) :=
  grant_credit s user_id amount .refund none

/-- `CreditService.redeem_code`: fails with `BadRequestException` if the
code is unknown or already used, or (for the 1000-credit tier only) if
the user's transaction history already holds a 1000-credit `redeem_code`
entry; otherwise credits the code's amount, marks the code used, and
appends a `redeem_code` transaction.  The `except` clauses re-raise
`BadRequestException` and `NotFoundException` unchanged, and no other
exception arises in the body. -/
def redeem_code (s : St) (user_id : Nat) (code : String) :
    Except AppError (St × CreditTransaction) :=
  match s.codes.find? (fun c => c.code == code) with
  | none => .error .badRequest
  | some rc =>
    if rc.is_used then .error .badRequest
    else if rc.credit_amount == 1000 &&
        s.log.any (fun t => t.user_id == user_id &&
          t.transaction_type == TransactionType.redeem_code &&
          t.amount == 1000) then
      .error .badRequest
    else
      match getBalance s user_id with
      | none => .error .notFound
      | some bal =>
        let t : CreditTransaction :=
          { user_id := user_id, transaction_type := .redeem_code,
            amount := rc.credit_amount, balance_after := bal + rc.credit_amount }
        .ok ({ s with
               balances := setBalance s.balances user_id (bal + rc.credit_amount),
               log := s.log ++ [t],
               codes := s.codes.map (fun c =>
                 if c.code == code then
                   { c with is_used := true, used_by := some user_id }
                 else c) }, t)

/-- The `last_grant.year == now.year and last_grant.month == now.month`
check of `grant_monthly_subscription_credit`. -/
def sameYearMonth (a b : DateTime) : Bool :=
  a.year == b.year && a.month == b.month

/-- The part of the `grant_monthly_subscription_credit` body after the
same-calendar-month early return (status check, user lookup, reclaim of
the previous month's grant, new grant, date stamp). -/
def grant_monthly_after_month_check (s : St) (sub : Subscription)
    (now : DateTime) : Except AppError (St × Option CreditTransaction) :=
  if sub.status ≠ SubscriptionStatus.active then .ok (s, none)
  else
    match getBalance s sub.user_id with
    | none => .error .notFound
    | some bal =>
      -- reclaim of the previous grant: only attempted when a previous
      -- grant date is recorded; the most recent monthly_grant row of
      -- this subscription is inspected
      let last_grant_transaction : Option CreditTransaction :=
        if sub.last_credit_grant_date.isSome then
          (s.log.filter (fun t =>
            t.subscription_id == some sub.id &&
            t.transaction_type == TransactionType.monthly_grant &&
            t.user_id == sub.user_id)).getLast?
        else none
      let afterReclaim : St × Int :=
        match last_grant_transaction with
        | some g =>
          if g.amount > 0 then
            let reclaim_amount := min g.amount bal
            if reclaim_amount > 0 then
              ({ s with
                  balances := setBalance s.balances sub.user_id (bal - reclaim_amount),
                  log := s.log ++
                    [{ user_id := sub.user_id, subscription_id := some sub.id,
                       transaction_type := .monthly_reclaim,
                       amount := -reclaim_amount,
                       balance_after := bal - reclaim_amount }] }, bal - reclaim_amount)
            else (s, bal)
          else (s, bal)
        | none => (s, bal)
      let g : CreditTransaction :=
        { user_id := sub.user_id, subscription_id := some sub.id,
          transaction_type := .monthly_grant, amount := sub.monthly_credits,
          balance_after := afterReclaim.2 + sub.monthly_credits }
      .ok ({ afterReclaim.1 with
              balances := setBalance afterReclaim.1.balances sub.user_id
                (afterReclaim.2 + sub.monthly_credits),
              log := afterReclaim.1.log ++ [g],
              subs := afterReclaim.1.subs.map (fun x =>
                if x.id == sub.id then { x with last_credit_grant_date := some now }
                else x) }, some g)

/-- The `try` body of
`CreditService.grant_monthly_subscription_credit`: returns `none`
without mutation when the subscription's last grant date falls in the
current calendar month or the subscription is not active; otherwise
reclaims `min(last monthly_grant amount, current balance)` (when a prior
grant exists with positive amount and the reclaim is positive), grants
`monthly_credits`, and stamps `last_credit_grant_date := now`. -/
def grant_monthly_subscription_credit_body (s : St) (sub : Subscription)
    (now : DateTime) : Except AppError (St × Option CreditTransaction) :=
  match sub.last_credit_grant_date with
  | some last_grant =>
    if sameYearMonth last_grant now then .ok (s, none)
    else grant_monthly_after_month_check s sub now
  | none => grant_monthly_after_month_check s sub now

/-- `CreditService.grant_monthly_subscription_credit`, with its blanket
`except Exception` handler (rollback, then `InternalServerException`). -/
def grant_monthly_subscription_credit (s : St) (sub : Subscription)
    (now : DateTime) : Except AppError (St × Option CreditTransaction) :=
  match grant_monthly_subscription_credit_body s sub now with
  | .ok r => .ok r
  | .error _ => .error .internalServer

/-- The credit-settlement step of `video_task`
(src/backend/src/tasks/generate_tasks.py, the `try` block at progress
98): compute per-segment credits from the measured durations, then debit
the user's balance without a sufficiency check (the balance is allowed
to go negative) and append a `task_consume` transaction.  Every
exception raised inside this block — a database fault (modelled by the
`dbFault` oracle) or the `ValueError` for a missing user row — is caught
and swallowed, with `total_credits` reset to `0`.  Returns the new state
and the `total_credits` value the surrounding code goes on to record. -/
def video_task_settle (s : St) (task : VideoGenerateTask)
    (segment_durations : List Int) (dbFault : Bool) : St × Int :=
  let total_credits := calculate_task_credit segment_durations
  if dbFault then (s, 0)
  else
    match getBalance s task.user_id with
    | none => (s, 0)
    | some bal =>
      let t : CreditTransaction :=
        { user_id := task.user_id, task_id := some task.id,
          transaction_type := .task_consume, amount := -total_credits,
          balance_after := bal - total_credits }
      ({ s with
          balances := setBalance s.balances task.user_id (bal - total_credits),
          log := s.log ++ [t] }, total_credits)

/-- Steps 10–11 of `video_task`: after the final video is uploaded, run
the swallowed-failure credit settlement, then mark the task completed
with progress 100, the measured duration, the recorded credit cost, and
the output reference; the error message is cleared.  Returns the new
state together with the updated task row. -/
def video_task_finalize (s : St) (task : VideoGenerateTask)
    (segment_durations : List Int) (output_gcs_path : String)
    (dbFault : Bool) : St × VideoGenerateTask :=
  let settled := video_task_settle s task segment_durations dbFault
  let total_duration := segment_durations.sum
  let task1 : VideoGenerateTask :=
    { task with
        output_video_url := some output_gcs_path,
        video_duration := some total_duration,
        credit_cost := some settled.2,
        status := .completed,
        progress := 100,
        error_message := none }
  ({ settled.1 with
      tasks := settled.1.tasks.map (fun t => if t.id == task.id then task1 else t) },
   task1)

/-- The error kinds of one `generate_audio_from_text` attempt:
`TokenLimitExceededError` (the terminal kind defined at the top of
generate_tasks.py) or an arbitrary exception from the TTS provider
call. -/
inductive AudioError
  | tokenLimitExceeded
  | providerError
deriving DecidableEq, Repr

/-- The `max_tokens = 32000` ceiling in `generate_audio_from_text`. -/
def AUDIO_MAX_TOKENS : Nat := 32000

/-- One attempt of the `generate_audio_from_text` body: raise
`TokenLimitExceededError` when the tiktoken count of the narration text
exceeds 32000, otherwise call the TTS provider (an oracle mapping the
attempt number to success or failure; on failure the exception is
re-raised unchanged).  The text is represented by its token count. -/
def generate_audio_attempt (token_count : Nat) (provider : Nat → Bool)
    (attempt : Nat) : Except AudioError Unit :=
  if token_count > AUDIO_MAX_TOKENS then .error .tokenLimitExceeded
  else if provider attempt then .ok () else .error .providerError

/-- The tenacity decorator `retry(stop=stop_after_attempt(n))` exactly as
written on `generate_audio_from_text`: no `retry=` predicate is given, so
tenacity's default retries after EVERY exception; the loop stops once `n`
attempts have been made and the last exception is then surfaced.
Attempts are numbered from `k`; returns the final result together with
the number of the attempt that produced it. -/
def tenacityRun (f : Nat → Except AudioError Unit) :
    Nat → Nat → Except AudioError Unit × Nat
  | 0, k => (f k, k)
  | 1, k => (f k, k)
  | Nat.succ m, k =>
    match f k with
    | .ok a => (.ok a, k)
    | .error _ => tenacityRun f m (k + 1)

/-- `generate_audio_from_text` as deployed: the attempt body under
`retry(stop=stop_after_attempt(3))`.  Returns the result together with
the number of attempts that were actually made. -/
def generate_audio_from_text (token_count : Nat) (provider : Nat → Bool) :
    Except AudioError Unit × Nat :=
  tenacityRun (generate_audio_attempt token_count provider) 3 1

/-- `SubscriptionService.get_active_subscription`: select the user's
subscriptions with status `active` and `end_date > now` (a row with a
NULL `end_date` does not match the SQL comparison).  The result goes
through `scalar_one_or_none()`, and the blanket `except` returns `None`
on any error — so two or more matching rows also yield `none`. -/
def get_active_subscription (s : St) (user_id : Nat) (now : DateTime) :
    Option Subscription :=
  match s.subs.filter (fun x =>
      x.user_id == user_id && x.status == SubscriptionStatus.active &&
      (match x.end_date with
       | some e => now.ord < e.ord
       | none => false)) with
  | [x] => some x
  | _ => none

/-- `SubscriptionService._create_subscription`: the type and period are
enum-valid by construction; the plan catalog is consulted, a missing
user raises `NotFoundException`, an existing active subscription raises
`ConflictException`, and otherwise a `pending` subscription row is
appended with the plan's `monthly_credits`.  The typed exceptions are
re-raised unchanged by the `except` clauses. -/
def create_subscription (s : St) (user_id : Nat)
    (subscription_type : SubscriptionType)
    (subscription_period : SubscriptionPeriod) (newId : Nat) (now : DateTime) :
    Except AppError (St × Subscription) :=
  match getBalance s user_id with
  | none => .error .notFound
  | some _ =>
    match get_active_subscription s user_id now with
    | some _ => .error .conflict
    | none =>
      let sub : Subscription :=
        { id := newId, user_id := user_id,
          subscription_type := subscription_type,
          subscription_period := subscription_period,
          status := .pending,
          monthly_credits := plan_monthly_credits subscription_type }
      .ok ({ s with subs := s.subs ++ [sub] }, sub)

/-- `SubscriptionService.activate_subscription` (called on payment
confirmation): look the subscription up by id, check ownership, set
status `active` with `start_date = now` and
`end_date = now + 365 or 30 days` by period, commit, then run the first
monthly credit grant.  No check against other active subscriptions of
the same user is performed.  (In the source the activation commit
precedes the grant call, so a grant failure leaves the activation
committed; no theorem below exercises that path and the error case is
modelled coarsely as a rolled-back `InternalServerException`.) -/
def activate_subscription (s : St) (subscription_id : Nat) (user_id : Nat)
    (now : DateTime) : Except AppError (St × Subscription) :=
  match s.subs.find? (fun x => x.id == subscription_id) with
  | none => .error .notFound
  | some sub =>
    if sub.user_id ≠ user_id then .error .forbidden
    else
      let endDate := now.addDays
        (if sub.subscription_period = SubscriptionPeriod.yearly then 365 else 30)
      let sub1 : Subscription :=
        { sub with
            status := .active, start_date := some now,
            end_date := some endDate, next_billing_date := some endDate }
      let s1 : St :=
        { s with subs := s.subs.map (fun x => if x.id == subscription_id then sub1 else x) }
      match grant_monthly_subscription_credit s1 sub1 now with
      | .ok (s2, _) => .ok (s2, sub1)
      | .error _ => .error .internalServer

/-- The dataclass `VideoGenerationRequest` of
src/backend/src/services/video_service.py; the uploaded file is
represented by its filename. -/
structure VideoGenerationRequest where
  text : Option String := none
  file : Option String := none
  url : Option String := none
  language : String := "english"
  voice_type : String := "mike"

/-- The external collaborators `submit_generation_task` calls: document
extraction plus storage upload for an uploaded file, web-page content
extraction for a URL (each returning the extracted text or the typed
exception the source raises), and the Gemini `count_tokens` call. -/
structure SubmitEnv where
  extract_file : String → Except AppError String
  fetch_url : String → Except AppError String
  count_tokens : String → Nat

/-- The `max_tokens = 1_048_576` input ceiling in
`submit_generation_task`. -/
def MAX_INPUT_TOKENS : Nat := 1048576

/-- `VideoService.submit_generation_task`: the admission check against
the credit ledger comes first and an insufficient balance raises
`InsufficientCreditException` before anything is created; then the
content source is resolved with precedence file > url > text (no source
at all raises `BadRequestException`), the resolved text is token-bounded
(the Python `if original_text:` truthiness check skips validation for an
empty string), and only then is the `pending` task row created.  Returns
the new state and the task id. -/
def submit_generation_task (env : SubmitEnv) (s : St)
    (req : VideoGenerationRequest) (user_id : Nat) (newRowId : Nat)
    (newTaskId : Nat) : Except AppError (St × Nat) :=
  match check_credit_sufficient s user_id MIN_CREDIT_FOR_TASK with
  | .error e => .error e
  | .ok is_sufficient =>
    if is_sufficient = false then .error .insufficientCredit
    else
      let resolved : Except AppError (String × String × Option String × Option String) :=
        match req.file with
        | some filename =>
          match env.extract_file filename with
          | .error e => .error e
          | .ok text => .ok ("file", text, none, some filename)
        | none =>
          match req.url with
          | some u =>
            match env.fetch_url u with
            | .error _ => .error .urlAccess
            | .ok text => .ok ("url", text, some u, none)
          | none =>
            match req.text with
            | some t => .ok ("text", t, none, none)
            | none => .error .badRequest
      match resolved with
      | .error e => .error e
      | .ok (input_type, original_text, source_url, input_file_url) =>
        if original_text ≠ "" ∧ env.count_tokens original_text > MAX_INPUT_TOKENS then
          .error .tokenLimitExceeded
        else
          let task : VideoGenerateTask :=
            { id := newRowId, task_id := newTaskId, user_id := user_id,
              status := .pending, progress := 0,
              input_type := some input_type, original_text := original_text,
              source_url := source_url, input_file_url := input_file_url,
              target_language := req.language, voice_type := req.voice_type }
          .ok ({ s with tasks := s.tasks ++ [task] }, newTaskId)

/-- One invocation of a ledger-mutating operation, carrying the
arguments of the corresponding source function: `consume_credit`,
`grant_credit`, `refund_credit`, `redeem_code`,
`grant_monthly_subscription_credit`, and the settlement debit inside
`video_task`. -/
inductive LedgerOp
  | consume (user_id : Nat) (amount : Int) (task_id : Option Nat)
  | grant (user_id : Nat) (amount : Int) (transaction_type : TransactionType)
      (subscription_id : Option Nat)
  | refund (user_id : Nat) (amount : Int)
  | redeem (user_id : Nat) (code : String)
  | monthlyGrant (sub : Subscription) (now : DateTime)
  | settle (task : VideoGenerateTask) (segment_durations : List Int)
      (output_gcs_path : String) (dbFault : Bool)

/-- The state transformer of each ledger-mutating operation.  An error
is a raised-and-rolled-back exception: the database keeps the pre-call
state. -/
def applyLedgerOp : LedgerOp → St → Except AppError St
  | .consume u a tid, s => (consume_credit s u a tid).map Prod.fst
  | .grant u a ty sid, s => (grant_credit s u a ty sid).map Prod.fst
  | .refund u a, s => (refund_credit s u a).map Prod.fst
  | .redeem u c, s => (redeem_code s u c).map Prod.fst
  | .monthlyGrant sub now, s =>
    (grant_monthly_subscription_credit s sub now).map Prod.fst
  | .settle task durs path fault, s =>
    .ok (video_task_finalize s task durs path fault).1

theorem amountSum_append (l l' : List CreditTransaction) :
    amountSum (l ++ l') = amountSum l + amountSum l' := by
  induction l with
  | nil => simp [amountSum]
  | cons t r ih => simp [amountSum, ih, add_assoc]

theorem replayFrom_append (l l' : List CreditTransaction) :
    ∀ b, replayFrom b (l ++ l') = (replayFrom b l && replayFrom (b + amountSum l) l') := by
  induction l with
  | nil => intro b; simp [replayFrom, amountSum]
  | cons t r ih => intro b; simp [replayFrom, amountSum, ih, Bool.and_assoc, add_assoc]

theorem userLog_append (u : Nat) (l l' : List CreditTransaction) :
    userLog u (l ++ l') = userLog u l ++ userLog u l' := by
  simp [userLog, List.filter_append]

theorem userLog_single_same (u : Nat) (t : CreditTransaction)
    (h : t.user_id = u) : userLog u [t] = [t] := by
  simp [userLog, h]

theorem userLog_single_other (u : Nat) (t : CreditTransaction)
    (h : ¬ t.user_id = u) : userLog u [t] = [] := by
  simp [userLog, beq_iff_eq, h]

theorem getBalance_some_mem (s : St) (u : Nat) (b : Int)
    (h : getBalance s u = some b) :
    ∃ x ∈ s.balances, x.1 = u ∧ x.2 = b := by
  unfold getBalance at h
  cases hfind : s.balances.find? (fun p => p.1 == u) with
  | none => rw [hfind] at h; simp at h
  | some x =>
    rw [hfind] at h
    simp at h
    refine ⟨x, List.mem_of_find?_eq_some hfind, ?_, h⟩
    have hpx := List.find?_some hfind
    simpa [beq_iff_eq] using hpx

theorem find?_setBalance (u : Nat) (v : Int) :
    ∀ l : List (Nat × Int), (l.find? (fun p => p.1 == u)).isSome →
      (setBalance l u v).find? (fun p => p.1 == u) = some (u, v) := by
  intro l
  induction l with
  | nil => intro h; simp at h
  | cons q r ih =>
    intro h
    have hstep : setBalance (q :: r) u v
        = (if (q.1 == u) = true then ((u, v) : Nat × Int) else q) :: setBalance r u v := rfl
    by_cases hq : (q.1 == u) = true
    · rw [hstep, if_pos hq]
      exact List.find?_cons_of_pos _ (by simp)
    · rw [hstep, if_neg hq]
      rw [List.find?_cons_of_neg (p := fun x : Nat × Int => x.1 == u) _ hq]
      rw [List.find?_cons_of_neg (p := fun x : Nat × Int => x.1 == u) _ hq] at h
      exact ih h

/-- After an operation writes balance `v` for user `u`, reading the
balance back yields `v` (given the user row existed before). -/
theorem getBalance_after_set (s s' : St) (u : Nat) (b v : Int)
    (hb : getBalance s u = some b)
    (hbal : s'.balances = setBalance s.balances u v) :
    getBalance s' u = some v := by
  have hsome : (s.balances.find? (fun p => p.1 == u)).isSome := by
    unfold getBalance at hb
    cases hfind : s.balances.find? (fun p => p.1 == u) with
    | none => rw [hfind] at hb; simp at hb
    | some x => simp [hfind]
  unfold getBalance
  rw [hbal, find?_setBalance u v s.balances hsome]
  rfl

/-- Core preservation step: appending one transaction for user `u` whose
`balance_after` equals the user's running balance plus the signed
`amount`, while writing exactly that balance back to the user row,
preserves the ledger replay invariant. -/
theorem ledgerInv_append (s s' : St) (u : Nat) (b v : Int)
    (t : CreditTransaction)
    (hinv : ledgerInv s) (hb : getBalance s u = some b)
    (hu : t.user_id = u) (hv : v = b + t.amount) (hba : t.balance_after = v)
    (hbal : s'.balances = setBalance s.balances u v)
    (hlog : s'.log = s.log ++ [t]) : ledgerInv s' := by
  obtain ⟨x, hxmem, hx1, hx2⟩ := getBalance_some_mem s u b hb
  have hreplay : replayFrom 0 (userLog u s.log) = true := by
    have h1 := (hinv x hxmem).1; rwa [hx1] at h1
  have hsum : amountSum (userLog u s.log) = b := by
    have h2 := (hinv x hxmem).2; rw [hx1] at h2; rw [h2, hx2]
  intro p hp
  rw [hbal] at hp
  simp only [setBalance, List.mem_map] at hp
  obtain ⟨q, hq, hfq⟩ := hp
  rw [hlog, userLog_append]
  by_cases hqu : q.1 = u
  · have hp1 : p.1 = u := by
      rw [← hfq]; simp [beq_iff_eq, hqu]
    have hp2 : p.2 = v := by
      rw [← hfq]; simp [beq_iff_eq, hqu]
    rw [hp1, hp2, userLog_single_same u t hu]
    constructor
    · rw [replayFrom_append, hreplay, hsum]
      simp [replayFrom, hba, hv]
    · rw [amountSum_append, hsum]
      simp [amountSum, hv]
  · have hpq : p = q := by
      rw [← hfq]; simp [beq_iff_eq, hqu]
    rw [hpq]
    rw [userLog_single_other q.1 t (by rw [hu]; exact fun hh => hqu hh.symm)]
    rw [List.append_nil]
    exact hinv q hq

/-- A state change that touches neither the user balances nor the
transaction log preserves the ledger invariant. -/
theorem ledgerInv_congr (s s' : St) (hinv : ledgerInv s)
    (hbal : s'.balances = s.balances) (hlog : s'.log = s.log) :
    ledgerInv s' := by
  intro p hp
  rw [hbal] at hp
  rw [hlog]
  exact hinv p hp

theorem consume_credit_preserves (s : St) (u : Nat) (a : Int)
    (tid : Option Nat) (s' : St) (t : CreditTransaction)
    (hinv : ledgerInv s) (h : consume_credit s u a tid = .ok (s', t)) :
    ledgerInv s' := by
  unfold consume_credit consume_credit_body at h
  cases hb : getBalance s u with
  | none => rw [hb] at h; simp at h
  | some bal =>
    rw [hb] at h
    by_cases hlt : bal < a
    · simp [hlt] at h
    · simp [hlt] at h
      refine ledgerInv_append s s' u bal (bal - a)
        { user_id := u, task_id := tid, transaction_type := .task_consume,
          amount := -a, balance_after := bal - a }
        hinv hb rfl (by show bal - a = bal + (-a); ring) rfl ?_ ?_
      · rw [← h.1]
      · rw [← h.1]

theorem grant_credit_preserves (s : St) (u : Nat) (a : Int)
    (ty : TransactionType) (sid : Option Nat) (s' : St)
    (t : CreditTransaction) (hinv : ledgerInv s)
    (h : grant_credit s u a ty sid = .ok (s', t)) : ledgerInv s' := by
  unfold grant_credit grant_credit_body at h
  cases hb : getBalance s u with
  | none => rw [hb] at h; simp at h
  | some bal =>
    rw [hb] at h
    simp at h
    refine ledgerInv_append s s' u bal (bal + a)
      { user_id := u, subscription_id := sid, transaction_type := ty,
        amount := a, balance_after := bal + a }
      hinv hb rfl rfl rfl ?_ ?_
    · rw [← h.1]
    · rw [← h.1]

theorem redeem_code_preserves (s : St) (u : Nat) (c : String) (s' : St)
    (t : CreditTransaction) (hinv : ledgerInv s)
    (h : redeem_code s u c = .ok (s', t)) : ledgerInv s' := by
  unfold redeem_code at h
  cases hc : s.codes.find? (fun x => x.code == c) with
  | none => rw [hc] at h; simp at h
  | some rc =>
    rw [hc] at h
    by_cases hused : rc.is_used = true
    · simp [hused] at h
    · by_cases h1000 : (rc.credit_amount == 1000 &&
          s.log.any (fun x => x.user_id == u &&
            x.transaction_type == TransactionType.redeem_code &&
            x.amount == 1000)) = true
      · simp [hused, h1000] at h
      · cases hb : getBalance s u with
        | none => simp [hused, h1000, hb] at h
        | some bal =>
          simp [hused, h1000, hb] at h
          refine ledgerInv_append s s' u bal (bal + rc.credit_amount)
            { user_id := u, transaction_type := .redeem_code,
              amount := rc.credit_amount,
              balance_after := bal + rc.credit_amount }
            hinv hb rfl rfl rfl ?_ ?_
          · rw [← h.1]
          · rw [← h.1]

theorem grant_monthly_after_preserves (s : St) (sub : Subscription)
    (now : DateTime) (s' : St) (r : Option CreditTransaction)
    (hinv : ledgerInv s)
    (h : grant_monthly_after_month_check s sub now = .ok (s', r)) :
    ledgerInv s' := by
  unfold grant_monthly_after_month_check at h
  by_cases hst : sub.status = SubscriptionStatus.active
  · simp only [hst, ne_eq, not_true_eq_false, if_false] at h
    cases hb : getBalance s sub.user_id with
    | none => rw [hb] at h; simp at h
    | some bal =>
      rw [hb] at h
      cases hlg : (if sub.last_credit_grant_date.isSome then
          (s.log.filter (fun x =>
            x.subscription_id == some sub.id &&
            x.transaction_type == TransactionType.monthly_grant &&
            x.user_id == sub.user_id)).getLast?
        else none) with
      | none =>
        rw [hlg] at h
        simp at h
        refine ledgerInv_append s s' sub.user_id bal (bal + sub.monthly_credits)
          { user_id := sub.user_id, subscription_id := some sub.id,
            transaction_type := .monthly_grant, amount := sub.monthly_credits,
            balance_after := bal + sub.monthly_credits }
          hinv hb rfl rfl rfl ?_ ?_
        · rw [← h.1]
        · rw [← h.1]
      | some g =>
        rw [hlg] at h
        by_cases hpos : g.amount > 0
        · by_cases hra : min g.amount bal > 0
          · simp [hpos, hra] at h
            refine ledgerInv_append
              { s with
                  balances := setBalance s.balances sub.user_id (bal - min g.amount bal),
                  log := s.log ++
                    [{ user_id := sub.user_id, subscription_id := some sub.id,
                       transaction_type := .monthly_reclaim,
                       amount := -(min g.amount bal),
                       balance_after := bal - min g.amount bal }] }
              s' sub.user_id (bal - min g.amount bal)
              (bal - min g.amount bal + sub.monthly_credits)
              { user_id := sub.user_id, subscription_id := some sub.id,
                transaction_type := .monthly_grant, amount := sub.monthly_credits,
                balance_after := bal - min g.amount bal + sub.monthly_credits }
              ?_ ?_ rfl rfl rfl ?_ ?_
            · exact ledgerInv_append s _ sub.user_id bal (bal - min g.amount bal)
                { user_id := sub.user_id, subscription_id := some sub.id,
                  transaction_type := .monthly_reclaim,
                  amount := -(min g.amount bal),
                  balance_after := bal - min g.amount bal }
                hinv hb rfl (by show _ = bal + -(min g.amount bal); ring) rfl rfl rfl
            · exact getBalance_after_set s _ sub.user_id bal (bal - min g.amount bal) hb rfl
            · rw [← h.1]
            · rw [← h.1]; simp
          · simp [hpos, hra] at h
            refine ledgerInv_append s s' sub.user_id bal (bal + sub.monthly_credits)
              { user_id := sub.user_id, subscription_id := some sub.id,
                transaction_type := .monthly_grant, amount := sub.monthly_credits,
                balance_after := bal + sub.monthly_credits }
              hinv hb rfl rfl rfl ?_ ?_
            · rw [← h.1]
            · rw [← h.1]
        · simp [hpos] at h
          refine ledgerInv_append s s' sub.user_id bal (bal + sub.monthly_credits)
            { user_id := sub.user_id, subscription_id := some sub.id,
              transaction_type := .monthly_grant, amount := sub.monthly_credits,
              balance_after := bal + sub.monthly_credits }
            hinv hb rfl rfl rfl ?_ ?_
          · rw [← h.1]
          · rw [← h.1]
  · simp only [hst, ne_eq, not_false_eq_true, if_true] at h
    simp at h
    exact ledgerInv_congr s s' hinv (by rw [← h.1]) (by rw [← h.1])

theorem grant_monthly_preserves (s : St) (sub : Subscription)
    (now : DateTime) (s' : St) (r : Option CreditTransaction)
    (hinv : ledgerInv s)
    (h : grant_monthly_subscription_credit s sub now = .ok (s', r)) :
    ledgerInv s' := by
  unfold grant_monthly_subscription_credit
    grant_monthly_subscription_credit_body at h
  cases hlast : sub.last_credit_grant_date with
  | some d =>
    rw [hlast] at h
    by_cases hsame : sameYearMonth d now = true
    · simp [hsame] at h
      exact ledgerInv_congr s s' hinv (by rw [← h.1]) (by rw [← h.1])
    · simp only [hsame, if_false, Bool.false_eq_true] at h
      cases hbody : grant_monthly_after_month_check s sub now with
      | error e => rw [hbody] at h; simp at h
      | ok rr =>
        rw [hbody] at h
        simp at h
        exact grant_monthly_after_preserves s sub now s' r hinv
          (by rw [hbody, h])
  | none =>
    rw [hlast] at h
    cases hbody : grant_monthly_after_month_check s sub now with
    | error e => rw [hbody] at h; simp at h
    | ok rr =>
      rw [hbody] at h
      simp at h
      exact grant_monthly_after_preserves s sub now s' r hinv
        (by rw [hbody, h])

theorem video_task_finalize_preserves (s : St) (task : VideoGenerateTask)
    (durs : List Int) (path : String) (fault : Bool) (hinv : ledgerInv s) :
    ledgerInv (video_task_finalize s task durs path fault).1 := by
  unfold video_task_finalize video_task_settle
  cases fault with
  | true =>
    simp only [if_true]
    exact ledgerInv_congr s _ hinv rfl rfl
  | false =>
    simp only [Bool.false_eq_true, if_false]
    cases hb : getBalance s task.user_id with
    | none =>
      simp only [hb]
      exact ledgerInv_congr s _ hinv rfl rfl
    | some bal =>
      simp only [hb]
      exact ledgerInv_append s _ task.user_id bal
        (bal - calculate_task_credit durs)
        { user_id := task.user_id, task_id := some task.id,
          transaction_type := .task_consume,
          amount := -(calculate_task_credit durs),
          balance_after := bal - calculate_task_credit durs }
        hinv hb rfl (by show _ = bal + -(calculate_task_credit durs); ring)
        rfl rfl rfl

/-- C1: Ledger replay invariant — every ledger-mutating operation
(`consume_credit`, `grant_credit`, `refund_credit`, `redeem_code`,
`grant_monthly_subscription_credit`, and the settlement debit inside
`video_task`) preserves the invariant that, for every user, replaying
that user's credit transactions in creation order from an initial
balance of 0 reproduces every stored `balance_after` snapshot (each
operation writes `balance_after` equal to the user's `credit_balance`
immediately after applying the signed amount). -/
theorem C1_ledger_replay_invariant (op : LedgerOp) (s s' : St)
    (hinv : ledgerInv s) (h : applyLedgerOp op s = .ok s') : ledgerInv s' := by
  cases op with
  | consume u a tid =>
    simp only [applyLedgerOp] at h
    cases hc : consume_credit s u a tid with
    | error e => rw [hc] at h; simp [Except.map] at h
    | ok r =>
      obtain ⟨s1, t⟩ := r
      rw [hc] at h
      simp [Except.map] at h
      subst h
      exact consume_credit_preserves s u a tid s1 t hinv hc
  | grant u a ty sid =>
    simp only [applyLedgerOp] at h
    cases hc : grant_credit s u a ty sid with
    | error e => rw [hc] at h; simp [Except.map] at h
    | ok r =>
      obtain ⟨s1, t⟩ := r
      rw [hc] at h
      simp [Except.map] at h
      subst h
      exact grant_credit_preserves s u a ty sid s1 t hinv hc
  | refund u a =>
    simp only [applyLedgerOp] at h
    cases hc : refund_credit s u a with
    | error e => rw [hc] at h; simp [Except.map] at h
    | ok r =>
      obtain ⟨s1, t⟩ := r
      rw [hc] at h
      simp [Except.map] at h
      subst h
      exact grant_credit_preserves s u a .refund none s1 t hinv hc
  | redeem u c =>
    simp only [applyLedgerOp] at h
    cases hc : redeem_code s u c with
    | error e => rw [hc] at h; simp [Except.map] at h
    | ok r =>
      obtain ⟨s1, t⟩ := r
      rw [hc] at h
      simp [Except.map] at h
      subst h
      exact redeem_code_preserves s u c s1 t hinv hc
  | monthlyGrant sub now =>
    simp only [applyLedgerOp] at h
    cases hc : grant_monthly_subscription_credit s sub now with
    | error e => rw [hc] at h; simp [Except.map] at h
    | ok r =>
      obtain ⟨s1, t⟩ := r
      rw [hc] at h
      simp [Except.map] at h
      subst h
      exact grant_monthly_preserves s sub now s1 t hinv hc
  | settle task durs path fault =>
    simp only [applyLedgerOp] at h
    simp at h
    subst h
    exact video_task_finalize_preserves s task durs path fault hinv

/-- Witness for C1 at a concrete consume operation. -/
theorem C1_witness :
    ledgerInv ({ balances := [(1, 70)],
                 log := [{ user_id := 1, transaction_type := .purchase,
                           amount := 100, balance_after := 100 },
                         { user_id := 1, task_id := some 5,
                           transaction_type := .task_consume,
                           amount := -30, balance_after := 70 }] } : St) :=
  C1_ledger_replay_invariant (.consume 1 30 (some 5))
    { balances := [(1, 100)],
      log := [{ user_id := 1, transaction_type := .purchase,
                amount := 100, balance_after := 100 }] } _ (by decide) (by decide)

/-- State for the C2 counterexample: one user with balance 10 and an
empty ledger. -/
def c2_state : St := { balances := [(1, 10)], log := [] }

/-- C2 counterexample: with balance 10 < amount 20, `consume_credit`
does not fail with the insufficient-credit error — the blanket
`except Exception` handler re-raises it as an internal-server error. -/
theorem C2_counterexample :
    getBalance c2_state 1 = some 10 ∧ (10 : Int) < 20 ∧
    consume_credit c2_state 1 20 none ≠ .error AppError.insufficientCredit ∧
    consume_credit c2_state 1 20 none = .error AppError.internalServer := by
  decide

/-- C2 amended: when `credit_balance < amount`, `consume_credit` raises
the insufficient-credit exception internally but surfaces an
internal-server error (the session is rolled back, so balance and log
are unchanged); when `credit_balance ≥ amount` it debits the balance
and appends a `task_consume` transaction with `amount = -amount` and
`balance_after` = old balance − amount. -/
theorem C2_consume_amended (s : St) (u : Nat) (amount : Int)
    (tid : Option Nat) (b : Int) (hb : getBalance s u = some b) :
    (b < amount → consume_credit s u amount tid = .error .internalServer) ∧
    (amount ≤ b → consume_credit s u amount tid = .ok
      ({ s with
          balances := setBalance s.balances u (b - amount),
          log := s.log ++
            [{ user_id := u, task_id := tid,
               transaction_type := .task_consume, amount := -amount,
               balance_after := b - amount }] },
       { user_id := u, task_id := tid, transaction_type := .task_consume,
         amount := -amount, balance_after := b - amount })) := by
  constructor
  · intro hlt
    unfold consume_credit consume_credit_body
    rw [hb]
    simp [hlt]
  · intro hle
    have hlt : ¬ b < amount := not_lt.mpr hle
    unfold consume_credit consume_credit_body
    rw [hb]
    simp [hlt]

/-- Witness for C2's amended theorem at concrete inputs. -/
theorem C2_witness :
    consume_credit c2_state 1 20 none = .error AppError.internalServer ∧
    consume_credit c2_state 1 10 none = .ok
      ({ balances := [(1, 0)],
         log := [{ user_id := 1, transaction_type := .task_consume,
                   amount := -10, balance_after := 0 }] },
       { user_id := 1, transaction_type := .task_consume,
         amount := -10, balance_after := 0 }) :=
  ⟨(C2_consume_amended c2_state 1 20 none 10 (by decide)).1 (by decide),
   (C2_consume_amended c2_state 1 10 none 10 (by decide)).2 (by decide)⟩

/-- C3 counterexample: at a duration of exactly 60 seconds the segment
cost is 40 credits, not the claimed 45 (the 45-credit tier starts
strictly above 60 seconds). -/
theorem C3_counterexample :
    calculate_segment_credit 60 = 40 ∧ calculate_segment_credit 60 ≠ 45 := by
  decide

/-- C3 amended: boundary values of the cost tiers — 60 seconds costs 40
(it falls in the 45–60 tier), 59 costs 40, 44 costs 35, 29 costs 30. -/
theorem C3_boundaries_amended :
    calculate_segment_credit 60 = 40 ∧ calculate_segment_credit 59 = 40 ∧
    calculate_segment_credit 44 = 35 ∧ calculate_segment_credit 29 = 30 := by
  decide

/-- C4: the pure segment cost tiers — strictly more than 60 seconds
costs 45, 45 to 60 costs 40, 30 to less than 45 costs 35, less than 30
costs 30 — and the task cost is their sum, so durations [61, 50, 20]
yield per-segment costs [45, 40, 30] and a total of 115. -/
theorem C4_segment_cost_tiers :
    (∀ d : Int, d > 60 → calculate_segment_credit d = 45) ∧
    (∀ d : Int, 45 ≤ d → d ≤ 60 → calculate_segment_credit d = 40) ∧
    (∀ d : Int, 30 ≤ d → d < 45 → calculate_segment_credit d = 35) ∧
    (∀ d : Int, d < 30 → calculate_segment_credit d = 30) ∧
    ([61, 50, 20].map calculate_segment_credit = [45, 40, 30]) ∧
    calculate_task_credit [61, 50, 20] = 115 := by
  refine ⟨?_, ?_, ?_, ?_, by decide, by decide⟩
  · intro d h1; unfold calculate_segment_credit; split_ifs
    all_goals omega
  · intro d h1 h2; unfold calculate_segment_credit; split_ifs
    all_goals omega
  · intro d h1 h2; unfold calculate_segment_credit; split_ifs
    all_goals omega
  · intro d h1; unfold calculate_segment_credit; split_ifs
    all_goals omega

/-- Witness for C4 at concrete durations, one per tier. -/
theorem C4_witness :
    calculate_segment_credit 61 = 45 ∧ calculate_segment_credit 50 = 40 ∧
    calculate_segment_credit 35 = 35 ∧ calculate_segment_credit 20 = 30 :=
  ⟨C4_segment_cost_tiers.1 61 (by decide),
   C4_segment_cost_tiers.2.1 50 (by decide) (by decide),
   C4_segment_cost_tiers.2.2.1 35 (by decide) (by decide),
   C4_segment_cost_tiers.2.2.2.1 20 (by decide)⟩

/-- C5: contrary to the claim, the token-limit-exceeded error does NOT
bypass the audio step's retry.  The decorator as written is
`retry(stop=stop_after_attempt(3))` with no `retry=` predicate, so
tenacity retries every exception type: a narration text over the
32000-token ceiling raises `TokenLimitExceededError` on every attempt
and all 3 attempts are made before the error surfaces. -/
theorem C5_token_limit_is_retried (token_count : Nat) (provider : Nat → Bool)
    (h : token_count > AUDIO_MAX_TOKENS) :
    (generate_audio_from_text token_count provider).1
        = .error .tokenLimitExceeded ∧
    (generate_audio_from_text token_count provider).2 = 3 := by
  unfold generate_audio_from_text
  have hf : generate_audio_attempt token_count provider
      = fun _ => .error .tokenLimitExceeded := by
    funext k; simp [generate_audio_attempt, h]
  rw [hf]
  exact ⟨rfl, rfl⟩

/-- Witness for C5 at token count 32001. -/
theorem C5_witness :
    (generate_audio_from_text 32001 (fun _ => true)).1
        = .error AudioError.tokenLimitExceeded ∧
    (generate_audio_from_text 32001 (fun _ => true)).2 = 3 :=
  C5_token_limit_is_retried 32001 (fun _ => true) (by decide)

/-- C6: if the credit-settlement step fails after the final video has
been uploaded (any exception in the settlement try-block: an injected
database fault, or the user row missing), the failure is swallowed —
the task is still marked completed with progress 100, its recorded
credit cost is zero, the user's balance is not debited and no
transaction is appended, and the task is never transitioned to
failed. -/
theorem C6_settlement_failure_swallowed (s : St) (task : VideoGenerateTask)
    (durs : List Int) (path : String) (fault : Bool)
    (hfail : fault = true ∨ getBalance s task.user_id = none) :
    (video_task_finalize s task durs path fault).2.status = .completed ∧
    (video_task_finalize s task durs path fault).2.progress = 100 ∧
    (video_task_finalize s task durs path fault).2.credit_cost = some 0 ∧
    (video_task_finalize s task durs path fault).1.balances = s.balances ∧
    (video_task_finalize s task durs path fault).1.log = s.log := by
  cases hfail with
  | inl hf =>
    subst hf
    simp [video_task_finalize, video_task_settle]
  | inr hb =>
    cases fault with
    | true => simp [video_task_finalize, video_task_settle]
    | false => simp [video_task_finalize, video_task_settle, hb]

/-- State for the C6 witness: the task's user has no row, so the
settlement debit raises and is swallowed. -/
def c6_state : St := { balances := [(1, 40)], log := [] }

/-- Task for the C6 witness (owned by the missing user 9). -/
def c6_task : VideoGenerateTask :=
  { id := 3, task_id := 3, user_id := 9, status := .processing, progress := 98 }

/-- Witness for C6: settlement fails (missing user row), yet the task
completes with progress 100 and zero cost, and the ledger is
untouched. -/
theorem C6_witness :
    (video_task_finalize c6_state c6_task [61, 50, 20] "outputs/3/video.mp4" false).2.status = .completed ∧
    (video_task_finalize c6_state c6_task [61, 50, 20] "outputs/3/video.mp4" false).2.progress = 100 ∧
    (video_task_finalize c6_state c6_task [61, 50, 20] "outputs/3/video.mp4" false).2.credit_cost = some 0 ∧
    (video_task_finalize c6_state c6_task [61, 50, 20] "outputs/3/video.mp4" false).1.balances = c6_state.balances ∧
    (video_task_finalize c6_state c6_task [61, 50, 20] "outputs/3/video.mp4" false).1.log = c6_state.log :=
  C6_settlement_failure_swallowed c6_state c6_task [61, 50, 20]
    "outputs/3/video.mp4" false (Or.inr (by decide))

/-- C7: task admission — `submit_generation_task` fails with the
insufficient-credit error (creating nothing: an error result carries no
state change) whenever the user's balance is below the fixed 30-credit
threshold, and a task record is only ever created when the balance is
at least 30. -/
theorem C7_admission_threshold (env : SubmitEnv) (s : St)
    (req : VideoGenerationRequest) (u rowId taskId : Nat) (b : Int)
    (hb : getBalance s u = some b) :
    (b < 30 → submit_generation_task env s req u rowId taskId
        = .error .insufficientCredit) ∧
    (∀ s' tid, submit_generation_task env s req u rowId taskId = .ok (s', tid)
        → 30 ≤ b) := by
  constructor
  · intro hlt
    have hns : ¬ (b ≥ MIN_CREDIT_FOR_TASK) := by
      unfold MIN_CREDIT_FOR_TASK; omega
    unfold submit_generation_task check_credit_sufficient
    rw [hb]
    simp [hns]
  · intro s' tid hok
    by_contra hlt
    have hns : ¬ (b ≥ MIN_CREDIT_FOR_TASK) := by
      unfold MIN_CREDIT_FOR_TASK; omega
    unfold submit_generation_task check_credit_sufficient at hok
    rw [hb] at hok
    simp [hns] at hok

/-- State and environment for the C7 witness: balance 25 < 30. -/
def c7_state : St := { balances := [(1, 25)], log := [] }

/-- External collaborators for the C7 witness (never reached). -/
def c7_env : SubmitEnv :=
  { extract_file := fun _ => .error .fileProcessing,
    fetch_url := fun _ => .error .urlAccess,
    count_tokens := fun _ => 0 }

/-- Witness for C7: admission with balance 25 and threshold 30 fails
with the insufficient-credit error. -/
theorem C7_witness :
    submit_generation_task c7_env c7_state { text := some "hello" } 1 10 11
      = .error AppError.insufficientCredit :=
  (C7_admission_threshold c7_env c7_state { text := some "hello" } 1 10 11 25
    (by decide)).1 (by decide)

theorem calculate_task_credit_cons (d : Int) (rest : List Int) :
    calculate_task_credit (d :: rest)
      = calculate_segment_credit d + calculate_task_credit rest := by
  simp [calculate_task_credit]

/-- C10: every segment costs one of 30, 35, 40, 45 credits, the cost is
monotonically non-decreasing in the duration, and consequently the task
cost for n segments lies between 30·n and 45·n. -/
theorem C10_segment_cost_bounds :
    (∀ d : Int, calculate_segment_credit d = 30 ∨ calculate_segment_credit d = 35 ∨
      calculate_segment_credit d = 40 ∨ calculate_segment_credit d = 45) ∧
    (∀ d1 d2 : Int, d1 ≤ d2 →
      calculate_segment_credit d1 ≤ calculate_segment_credit d2) ∧
    (∀ ds : List Int, 30 * (ds.length : Int) ≤ calculate_task_credit ds ∧
      calculate_task_credit ds ≤ 45 * (ds.length : Int)) := by
  have hrange : ∀ d : Int, 30 ≤ calculate_segment_credit d ∧
      calculate_segment_credit d ≤ 45 := by
    intro d; unfold calculate_segment_credit; split_ifs
    all_goals omega
  refine ⟨?_, ?_, ?_⟩
  · intro d; unfold calculate_segment_credit; split_ifs
    all_goals simp
  · intro d1 d2 h; unfold calculate_segment_credit; split_ifs
    all_goals omega
  · intro ds
    induction ds with
    | nil => simp [calculate_task_credit]
    | cons d rest ih =>
      obtain ⟨h1, h2⟩ := hrange d
      rw [calculate_task_credit_cons]
      simp only [List.length_cons]
      push_cast
      omega

/-- Witness for C10 at concrete inputs. -/
theorem C10_witness :
    calculate_segment_credit 10 ≤ calculate_segment_credit 100 ∧
    (30 * (([61, 50, 20] : List Int).length : Int) ≤ calculate_task_credit [61, 50, 20] ∧
      calculate_task_credit [61, 50, 20] ≤ 45 * (([61, 50, 20] : List Int).length : Int)) :=
  ⟨C10_segment_cost_bounds.2.1 10 100 (by decide),
   C10_segment_cost_bounds.2.2 [61, 50, 20]⟩

theorem grant_monthly_after_some_subs (s : St) (sub : Subscription)
    (now : DateTime) (s' : St) (t : CreditTransaction)
    (h : grant_monthly_after_month_check s sub now = .ok (s', some t)) :
    s'.subs = s.subs.map (fun x =>
      if x.id == sub.id then { x with last_credit_grant_date := some now }
      else x) := by
  unfold grant_monthly_after_month_check at h
  by_cases hst : sub.status = SubscriptionStatus.active
  · simp only [hst, ne_eq, not_true_eq_false, if_false] at h
    cases hb : getBalance s sub.user_id with
    | none => rw [hb] at h; simp at h
    | some bal =>
      rw [hb] at h
      cases hlg : (if sub.last_credit_grant_date.isSome then
          (s.log.filter (fun x =>
            x.subscription_id == some sub.id &&
            x.transaction_type == TransactionType.monthly_grant &&
            x.user_id == sub.user_id)).getLast?
        else none) with
      | none =>
        rw [hlg] at h
        simp at h
        rw [← h.1]; simp
      | some g =>
        rw [hlg] at h
        by_cases hpos : g.amount > 0
        · by_cases hra : min g.amount bal > 0
          · simp [hpos, hra] at h
            rw [← h.1]; simp
          · simp [hpos, hra] at h
            rw [← h.1]; simp
        · simp [hpos] at h
          rw [← h.1]; simp
  · simp only [hst, ne_eq, not_false_eq_true, if_true] at h
    simp at h

theorem grant_monthly_some_subs (s : St) (sub : Subscription)
    (now : DateTime) (s' : St) (t : CreditTransaction)
    (h : grant_monthly_subscription_credit s sub now = .ok (s', some t)) :
    s'.subs = s.subs.map (fun x =>
      if x.id == sub.id then { x with last_credit_grant_date := some now }
      else x) := by
  unfold grant_monthly_subscription_credit at h
  cases hbody : grant_monthly_subscription_credit_body s sub now with
  | error e => rw [hbody] at h; simp at h
  | ok rr =>
    rw [hbody] at h
    simp at h
    subst h
    unfold grant_monthly_subscription_credit_body at hbody
    cases hlast : sub.last_credit_grant_date with
    | some d =>
      rw [hlast] at hbody
      by_cases hsame : sameYearMonth d now = true
      · simp [hsame] at hbody
      · simp only [hsame, if_false, Bool.false_eq_true] at hbody
        exact grant_monthly_after_some_subs s sub now s' t hbody
    | none =>
      rw [hlast] at hbody
      exact grant_monthly_after_some_subs s sub now s' t hbody

theorem find?_map_update (sid : Nat) (now : DateTime) :
    ∀ l : List Subscription, ∀ x : Subscription,
      l.find? (fun y => y.id == sid) = some x →
      (l.map (fun y => if y.id == sid then
          { y with last_credit_grant_date := some now } else y)).find?
        (fun y => y.id == sid)
        = some { x with last_credit_grant_date := some now } := by
  intro l
  induction l with
  | nil => intro x hx; simp at hx
  | cons q r ih =>
    intro x hx
    have hstep : (q :: r).map (fun y => if y.id == sid then
          { y with last_credit_grant_date := some now } else y)
        = (if (q.id == sid) = true then
            { q with last_credit_grant_date := some now } else q)
          :: r.map (fun y => if y.id == sid then
            { y with last_credit_grant_date := some now } else y) := rfl
    by_cases hq : (q.id == sid) = true
    · rw [List.find?_cons_of_pos (p := fun y : Subscription => y.id == sid) _ hq] at hx
      have hqx : q = x := by simpa using hx
      rw [hstep, if_pos hq]
      rw [List.find?_cons_of_pos (p := fun y : Subscription => y.id == sid) _
        (by simpa using hq)]
      rw [hqx]
    · rw [List.find?_cons_of_neg (p := fun y : Subscription => y.id == sid) _ hq] at hx
      rw [hstep, if_neg hq]
      rw [List.find?_cons_of_neg (p := fun y : Subscription => y.id == sid) _
        (by simpa using hq)]
      exact ih x hx

/-- C8: `grant_monthly_subscription_credit` is idempotent per calendar
month — whenever the subscription's `last_credit_grant_date` falls in
the current (year, month), the call returns `none` and performs no
mutation; in particular, after a successful grant stamps
`last_credit_grant_date := now`, a second call in the same calendar
month fetches the stamped row and is a no-op. -/
theorem C8_monthly_grant_idempotent :
    (∀ (s : St) (sub : Subscription) (now d : DateTime),
      sub.last_credit_grant_date = some d → sameYearMonth d now = true →
      grant_monthly_subscription_credit s sub now = .ok (s, none)) ∧
    (∀ (s s' : St) (sub : Subscription) (now now2 : DateTime)
        (t : CreditTransaction),
      s.subs.find? (fun x => x.id == sub.id) = some sub →
      grant_monthly_subscription_credit s sub now = .ok (s', some t) →
      sameYearMonth now now2 = true →
      s'.subs.find? (fun x => x.id == sub.id)
          = some { sub with last_credit_grant_date := some now } ∧
      grant_monthly_subscription_credit s'
          { sub with last_credit_grant_date := some now } now2
        = .ok (s', none)) := by
  have noop : ∀ (s : St) (sub : Subscription) (now d : DateTime),
      sub.last_credit_grant_date = some d → sameYearMonth d now = true →
      grant_monthly_subscription_credit s sub now = .ok (s, none) := by
    intro s sub now d hlast hsame
    unfold grant_monthly_subscription_credit
      grant_monthly_subscription_credit_body
    rw [hlast]
    simp [hsame]
  refine ⟨noop, ?_⟩
  intro s s' sub now now2 t hfind hok hsame
  have hsubs := grant_monthly_some_subs s sub now s' t hok
  constructor
  · rw [hsubs]
    exact find?_map_update sub.id now s.subs sub hfind
  · exact noop s' { sub with last_credit_grant_date := some now } now2 now
      rfl hsame

/-- Subscription for the C8 witness. -/
def c8_sub : Subscription :=
  { id := 7, user_id := 1, subscription_type := .basic,
    subscription_period := .monthly, status := .active,
    monthly_credits := 1000 }

/-- Grant time for the C8 witness. -/
def c8_now : DateTime := { year := 2026, month := 10, ord := 500 }

/-- Pre-grant state for the C8 witness. -/
def c8_s0 : St := { balances := [(1, 5)], log := [], subs := [c8_sub] }

/-- The monthly-grant transaction produced by the C8 witness run. -/
def c8_g : CreditTransaction :=
  { user_id := 1, subscription_id := some 7,
    transaction_type := .monthly_grant, amount := 1000,
    balance_after := 1005 }

/-- Post-grant state for the C8 witness. -/
def c8_s1 : St :=
  { balances := [(1, 1005)], log := [c8_g],
    subs := [{ c8_sub with last_credit_grant_date := some c8_now }] }

/-- Witness for C8: after a successful grant, the stamped subscription
row makes a second same-month call a no-op. -/
theorem C8_witness :
    c8_s1.subs.find? (fun x => x.id == c8_sub.id)
        = some { c8_sub with last_credit_grant_date := some c8_now } ∧
    grant_monthly_subscription_credit c8_s1
        { c8_sub with last_credit_grant_date := some c8_now } c8_now
      = .ok (c8_s1, none) :=
  C8_monthly_grant_idempotent.2 c8_s0 c8_s1 c8_sub c8_now c8_now c8_g
    (by decide) (by decide) (by decide)

/-- Instant at which the C9 scenario runs. -/
def c9_now : DateTime := { year := 2026, month := 10, ord := 100000 }

/-- Initial state for the C9 scenario: one user, no subscriptions. -/
def c9_s0 : St := { balances := [(1, 0)], log := [] }

/-- The C9 scenario: two checkout initiations create two pending
subscriptions for user 1 (no active subscription exists yet, so neither
creation conflicts), then both payments confirm and
`activate_subscription` runs for each. -/
def c9_trace : Except AppError St := do
  let r1 ← create_subscription c9_s0 1 .basic .monthly 101 c9_now
  let r2 ← create_subscription r1.1 1 .basic .monthly 102 c9_now
  let r3 ← activate_subscription r2.1 101 1 c9_now
  let r4 ← activate_subscription r3.1 102 1 c9_now
  pure r4.1

/-- Number of simultaneously active, unexpired subscriptions of a
user. -/
def activeSubsCount (s : St) (u : Nat) (now : DateTime) : Nat :=
  (s.subs.filter (fun x =>
    x.user_id == u && x.status == SubscriptionStatus.active &&
    (match x.end_date with
     | some e => now.ord < e.ord
     | none => false))).length

/-- C9 counterexample: the four-call sequence succeeds and leaves user 1
with TWO active subscriptions at the same instant —
`activate_subscription` performs no conflict check, so the at-most-one
invariant does not hold over all operation sequences. -/
theorem C9_counterexample :
    c9_trace.map (fun s => activeSubsCount s 1 c9_now) = .ok 2 := by
  decide

/-- C9 amended: the at-most-one-active invariant is enforced only by the
conflict check at creation — `_create_subscription` fails with a
Conflict error whenever the user currently has an active subscription —
while `activate_subscription` performs no such check, so activating two
subscriptions that were both created while the user had none active
yields two simultaneously active subscriptions. -/
theorem C9_conflict_check_at_creation_only (s : St) (u : Nat)
    (stype : SubscriptionType) (speriod : SubscriptionPeriod)
    (nid : Nat) (now : DateTime) (b : Int) (x : Subscription)
    (hu : getBalance s u = some b)
    (hactive : get_active_subscription s u now = some x) :
    create_subscription s u stype speriod nid now = .error .conflict := by
  unfold create_subscription
  rw [hu]
  simp [hactive]

/-- An active subscription for the C9 witness. -/
def c9_active_sub : Subscription :=
  { id := 50, user_id := 1, subscription_type := .basic,
    subscription_period := .monthly, status := .active,
    monthly_credits := 1000,
    end_date := some { year := 2026, month := 11, ord := 200000 } }

/-- State for the C9 witness: user 1 already has an active
subscription. -/
def c9_wstate : St :=
  { balances := [(1, 0)], log := [], subs := [c9_active_sub] }

/-- Witness for C9's amended theorem: creating a second subscription
while one is active fails with Conflict. -/
theorem C9_witness :
    create_subscription c9_wstate 1 .pro .monthly 51 c9_now
      = .error AppError.conflict :=
  C9_conflict_check_at_creation_only c9_wstate 1 .pro .monthly 51 c9_now 0
    c9_active_sub (by decide) (by decide)
